import Mathlib

/-!
Shallow embedding of the data-aggregation and on-demand-hydration pipeline of
the MSc_Python_ICA1 weather application (src/ICA/src/*.py), together with
theorems settling the specification claims about it.

Modelling conventions:
* Python floats are embedded as `Rat` (all arithmetic in the core is plain
  `+`, `/ 2`, sums and averages).
* Calendar dates are embedded as `Nat` day numbers; "start_date + 6 days" is
  `start_date + 6`.  Date-string parsing (`datetime.strptime`) is abstracted:
  payload dates arrive already as day numbers.
* Python exceptions are values of `PyError`; a fallible function returns
  `Except PyError _`.
* The SQLAlchemy session/database is an explicit `DB` record threaded through
  the functions; `session.add` + `commit` is list append.  Network effects are
  counted in an `S` record (`geocoderCalls`, `archiveCalls`) so that claims
  about "number of network calls" are statable.
-/

/-- Python exception values raised by the embedded code. -/
inductive PyError where
  | valueError (msg : String)
  | requestException (msg : String)
  | exception (msg : String)
  | sqlAlchemyError (msg : String)
  | indexError
  | attributeError
  | typeError
  deriving Repr, DecidableEq

/-- models/country.py: countries(id, name, timezone). -/
structure Country where
  id : Nat
  name : String
  timezone : String
  deriving Repr, DecidableEq

/-- models/city.py: cities(id, name, latitude, longitude, timezone, country_id).
`timezone` is `Option` because geocoding_api_service.py line 109 stores
`city_info.get('timezone')`, which is `None` when absent. -/
structure City where
  id : Nat
  name : String
  latitude : Rat
  longitude : Rat
  timezone : Option String
  country_id : Option Nat
  deriving Repr, DecidableEq

/-- models/daily_weather_entry.py: daily_weather_entries rows.  The schema has
no uniqueness constraint on (city_id, date). -/
structure DailyWeatherEntry where
  city_id : Nat
  date : Nat
  min_temp : Rat
  max_temp : Rat
  mean_temp : Rat
  precipitation : Rat
  deriving Repr, DecidableEq

/-- The persisted store (the three tables plus autoincrement counters). -/
structure DB where
  countries : List Country
  cities : List City
  entries : List DailyWeatherEntry
  nextCountryId : Nat
  nextCityId : Nat
  deriving Repr, DecidableEq

/-- Program state: the store plus counters of network requests issued to the
geocoding API and to the weather-archive API (one per `_make_request` call). -/
structure S where
  db : DB
  geocoderCalls : Nat
  archiveCalls : Nat
  deriving Repr, DecidableEq

def emptyDB : DB := { countries := [], cities := [], entries := [], nextCountryId := 0, nextCityId := 0 }

def s0 : S := { db := emptyDB, geocoderCalls := 0, archiveCalls := 0 }

/-- SQLAlchemy `ilike` with no wildcards: case-insensitive string equality
(compared character-wise through `Char.toLower`). -/
def ilike (a b : String) : Bool := a.data.map Char.toLower == b.data.map Char.toLower

/-! ## weather_data.py -/

/-- The raw `data["daily"]` dict of the archive response; each key may be
absent (`WeatherData.__init__` reads them with `.get(key, [])`). -/
structure RawDaily where
  temperature_2m_max : Option (List Rat)
  temperature_2m_min : Option (List Rat)
  precipitation_sum : Option (List Rat)
  time : Option (List Nat)
  deriving Repr, DecidableEq

/-- weather_data.py `WeatherData` after `__init__`. -/
structure WeatherData where
  temperature_2m_max : List Rat
  temperature_2m_min : List Rat
  precipitation_sum : List Rat
  dates : List Nat
  deriving Repr, DecidableEq

/-- `WeatherData.__init__`: each field defaults to `[]` when the key is absent. -/
def WeatherData.ofDict (d : RawDaily) : WeatherData :=
  { temperature_2m_max := d.temperature_2m_max.getD []
    temperature_2m_min := d.temperature_2m_min.getD []
    precipitation_sum := d.precipitation_sum.getD []
    dates := d.time.getD [] }

/-- weather_data.py lines 23-31, `WeatherData.is_valid`: true iff none of the
four sequences is empty.  (The source checks only Python truthiness of each
list; it does NOT compare their lengths.) -/
def WeatherData.is_valid (w : WeatherData) : Bool :=
  !(w.temperature_2m_max.isEmpty || w.temperature_2m_min.isEmpty ||
    w.precipitation_sum.isEmpty || w.dates.isEmpty)

/-- weather_data.py lines 48-81, `WeatherData.map_to_daily_weather`: raises
`ValueError` when `is_valid` is false, otherwise builds one entry per element
of `zip(dates, temperature_2m_max, temperature_2m_min, precipitation_sum)`.
Python's `zip` truncates to the shortest sequence, which the nested
`List.zip` reproduces exactly.  `mean_temp = (temp_max + temp_min) / 2`. -/
def WeatherData.map_to_daily_weather (w : WeatherData) (city_id : Nat) :
    Except PyError (List DailyWeatherEntry) :=
  if w.is_valid then
    .ok ((w.dates.zip (w.temperature_2m_max.zip (w.temperature_2m_min.zip w.precipitation_sum))).map
      (fun x =>
        { city_id := city_id
          date := x.1
          min_temp := x.2.2.1
          max_temp := x.2.1
          mean_temp := (x.2.1 + x.2.2.1) / 2
          precipitation := x.2.2.2 }))
  else
    .error (.valueError "Invalid weather data. Missing or empty required fields.")

/-! ## weather_api_service.py -/

/-- The parsed JSON body answered by the archive API: may carry an "error"
key and/or a "daily" key. -/
structure ArchiveResponse where
  error : Option String
  daily : Option RawDaily
  deriving Repr, DecidableEq

/-- weather_api_service.py lines 89-110, `WeatherApiService._store_weather_data`:
adds every entry to the session and commits; on `SQLAlchemyError` (modelled by
`storeOk = false`) the session is rolled back (store unchanged) and the error
re-raised.  The schema has no unique constraint, so nothing is deduplicated. -/
def store_weather_data (daily_weather_entries : List DailyWeatherEntry) (storeOk : Bool)
    (db : DB) : Except PyError DB :=
  if storeOk then
    .ok { db with entries := db.entries ++ daily_weather_entries }
  else
    .error (.sqlAlchemyError "Failed to store weather data")

/-- The `WeatherData` built in the `except` branch of `fetch_weather_data`
(all keys empty / absent). -/
def emptyWeatherData : WeatherData :=
  { temperature_2m_max := [], temperature_2m_min := [], precipitation_sum := [], dates := [] }

/-- weather_api_service.py lines 18-86, `WeatherApiService.fetch_weather_data`.
`request` is the outcome of `self._make_request(params)` (the network call is
counted in `archiveCalls`).  The body raises `ValueError` on an "error" key,
on a missing "daily" key and on invalid data, and `_store_weather_data`
re-raises `SQLAlchemyError`; but the enclosing `except Exception` catches
every one of these (and the transport failure) and returns an empty
`WeatherData` instead. -/
def fetch_weather_data (request : Except PyError ArchiveResponse) (storeOk : Bool)
    (city_id : Nat) (s : S) : WeatherData × S :=
  let s := { s with archiveCalls := s.archiveCalls + 1 }
  match request with
  | .error _ => (emptyWeatherData, s)
  | .ok data =>
    if data.error.isSome then
      (emptyWeatherData, s)
    else
      match data.daily with
      | none => (emptyWeatherData, s)
      | some daily =>
        let weather_data := WeatherData.ofDict daily
        if weather_data.is_valid then
          match weather_data.map_to_daily_weather city_id with
          | .ok daily_weather_entries =>
            match store_weather_data daily_weather_entries storeOk s.db with
            | .ok db2 => (weather_data, { s with db := db2 })
            | .error _ => (emptyWeatherData, s)
          | .error _ => (emptyWeatherData, s)
        else
          (emptyWeatherData, s)

/-- Number of persisted observations for a given (city_id, date) pair. -/
def countObservations (db : DB) (city_id date : Nat) : Nat :=
  (db.entries.filter (fun e => e.city_id == city_id && e.date == date)).length

/-! ## base_api_service.py -/

/-- base_api_service.py lines 57-82, the retry loop of
`BaseApiService._make_request`, generic in the response type (the class is
shared by both remote services).  `transport attempt` is the outcome of the
HTTP GET on that attempt (1-based).  Arguments: current `attempt` number and
the `fuel` of loop iterations left (`make_request` starts it at
`max_retries`, mirroring `for attempt in range(1, max_retries + 1)`).
Returns (result, number of attempts made, list of sleep durations in order).
Result `.ok none` models the implicit `return None` when the loop body never
runs (`max_retries = 0`).  Only `requests.RequestException` is caught and
retried; any other exception (e.g. a JSON decode `ValueError`) propagates at
once.  On the last failed attempt the source raises
`Exception(f"Failed to fetch data from {url} after {max_retries} attempts")`
— a message built from the url and the attempt count only.  (The response
check `if not isinstance(data, dict) not in data` on line 65 parses as
`not ((isinstance(data, dict)) not in data)`, i.e. it fires only when the
literal boolean `True` is a key of the response dict; our responses are
records with string keys, so the check never fires and is omitted.) -/
def make_request_aux {α : Type} (url : String) (transport : Nat → Except PyError α)
    (max_retries retry_delay : Nat) :
    Nat → Nat → Except PyError (Option α) × Nat × List Nat
  | _, 0 => (.ok none, 0, [])
  | attempt, fuel + 1 =>
    match transport attempt with
    | .ok data => (.ok (some data), 1, [])
    | .error (.requestException _) =>
      if attempt < max_retries then
        let r := make_request_aux url transport max_retries retry_delay (attempt + 1) fuel
        (r.1, r.2.1 + 1, retry_delay :: r.2.2)
      else
        (.error (.exception ("Failed to fetch data from " ++ url ++ " after " ++
          toString max_retries ++ " attempts")), 1, [])
    | .error e => (.error e, 1, [])

/-- base_api_service.py `_make_request`: run the retry loop from attempt 1. -/
def make_request {α : Type} (url : String) (transport : Nat → Except PyError α)
    (max_retries retry_delay : Nat) : Except PyError (Option α) × Nat × List Nat :=
  make_request_aux url transport max_retries retry_delay 1 max_retries

/-! ## geocoding_api_service.py -/

/-- One element of the geocoding response's "results" array.  Every key may be
absent. -/
structure GeoCandidate where
  name : Option String
  latitude : Option Rat
  longitude : Option Rat
  country : Option String
  country_code : Option String
  timezone : Option String
  deriving Repr, DecidableEq

/-- The parsed JSON body answered by the geocoding API. -/
structure GeoResponse where
  results : Option (List GeoCandidate)
  deriving Repr, DecidableEq

/-- geocoding_api_service.py lines 18-129, `GeocodingApiService.fetch_city_data`.
`request` is the outcome of `self._make_request(params={'name': city_name})`
(counted in `geocoderCalls`); `userChoice` is the 0-based selection the user
types when several results are offered (the source re-prompts on an invalid
selection and retries with fresh input; no claim exercises that path, and we
model an invalid selection as the `ValueError("Invalid choice")` the source
raises internally before re-prompting).  On empty/absent "results" the source
raises `ValueError(f"No results found for city: {city_name}")`.  The selected
candidate must carry name/latitude/longitude.  Its country (the 'country' key,
else 'country_code') is looked up by exact name and created if absent with the
candidate's timezone (default "Unavailable"); with no country key at all a
fresh Country("Unavailable", "Unavailable") is always added.  Finally the City
row is inserted (timezone `.get('timezone')`: may be None) and returned as a
one-element list.  All `except` clauses re-raise, so errors propagate. -/
def fetch_city_data (request : Except PyError GeoResponse) (userChoice : Nat)
    (city_name : String) (s : S) : Except PyError (List City) × S :=
  let s := { s with geocoderCalls := s.geocoderCalls + 1 }
  match request with
  | .error e => (.error e, s)
  | .ok response =>
    let data := response.results.getD []
    if data.isEmpty then
      (.error (.valueError ("No results found for city: " ++ city_name)), s)
    else
      let chosen : Except PyError GeoCandidate :=
        if data.length > 1 then
          match data.get? userChoice with
          | some c => .ok c
          | none => .error (.valueError "Invalid choice")
        else
          match data.head? with
          | some c => .ok c
          | none => .error .indexError
      match chosen with
      | .error e => (.error e, s)
      | .ok city_info =>
        match city_info.name, city_info.latitude, city_info.longitude with
        | some nm, some lat, some lon =>
          let country_name := city_info.country <|> city_info.country_code
          let countryAndDb : Country × DB :=
            match country_name with
            | some cn =>
              match s.db.countries.find? (fun c => c.name == cn) with
              | some c => (c, s.db)
              | none =>
                let c : Country :=
                  { id := s.db.nextCountryId, name := cn,
                    timezone := city_info.timezone.getD "Unavailable" }
                (c, { s.db with countries := s.db.countries ++ [c],
                                nextCountryId := s.db.nextCountryId + 1 })
            | none =>
              let c : Country :=
                { id := s.db.nextCountryId, name := "Unavailable", timezone := "Unavailable" }
              (c, { s.db with countries := s.db.countries ++ [c],
                              nextCountryId := s.db.nextCountryId + 1 })
          let country := countryAndDb.1
          let db1 := countryAndDb.2
          let city : City :=
            { id := db1.nextCityId, name := nm, latitude := lat, longitude := lon,
              timezone := city_info.timezone, country_id := some country.id }
          let db2 := { db1 with cities := db1.cities ++ [city], nextCityId := db1.nextCityId + 1 }
          (.ok [city], { s with db := db2 })
        | _, _, _ =>
          (.error (.valueError "Incomplete data for city"), s)

/-! ## location_manager.py -/

/-- location_manager.py lines 154-169, `LocationManager.get_city_from_db`:
`filter_by(name=location_name).first()` — exact, case-sensitive match, first
row wins. -/
def get_city_from_db (location_name : String) (db : DB) : Option City :=
  db.cities.find? (fun c => c.name == location_name)

/-- location_manager.py lines 87-111, `LocationManager.ensure_country_exists`:
look the country up with case-insensitive `ilike`; when absent create it with
timezone "Unavailable" and commit. -/
def ensure_country_exists (country_name : String) (s : S) : Country × S :=
  match s.db.countries.find? (fun c => ilike c.name country_name) with
  | some country => (country, s)
  | none =>
    let country : Country :=
      { id := s.db.nextCountryId, name := country_name, timezone := "Unavailable" }
    (country, { s with db := { s.db with countries := s.db.countries ++ [country],
                                         nextCountryId := s.db.nextCountryId + 1 } })

/-- location_manager.py lines 114-152, `LocationManager.ensure_city_exists`:
look the city up by exact name; when absent create it with timezone
"Unavailable" bound to the given country; afterwards, if the found city has no
country association, link it to the given country and commit. -/
def ensure_city_exists (city_name : String) (latitude longitude : Rat)
    (country : Country) (s : S) : City × S :=
  match s.db.cities.find? (fun c => c.name == city_name) with
  | some city =>
    if city.country_id.isNone then
      let city2 := { city with country_id := some country.id }
      (city2, { s with db := { s.db with
        cities := s.db.cities.map (fun c => if c.id == city.id then city2 else c) } })
    else
      (city, s)
  | none =>
    let city : City :=
      { id := s.db.nextCityId, name := city_name, latitude := latitude,
        longitude := longitude, timezone := some "Unavailable",
        country_id := some country.id }
    (city, { s with db := { s.db with cities := s.db.cities ++ [city],
                                      nextCityId := s.db.nextCityId + 1 } })

/-- location_manager.py lines 26-84, `LocationManager.ensure_location_in_database`
(the `LocationResolver.resolve` of the spec).  Cache hit: an exact-name lookup
in the store returns `[city]` with no network call.  Cache miss: call
`fetch_city_data`; whether one or many results come back, index 0 is taken
(`choice = 0` hard-coded); `location_data_list[0]` on an empty list would be
an `IndexError` (`fetch_city_data` never returns an empty list, it raises
first).  Then `ensure_country_exists(location_name)` — note: the QUERIED
location name, not the candidate's country — and
`ensure_city_exists(city_info.name, ...)`. -/
def ensure_location_in_database (geoRequest : Except PyError GeoResponse)
    (userChoice : Nat) (location_name : String) (s : S) :
    Except PyError (List City) × S :=
  match get_city_from_db location_name s.db with
  | some city => (.ok [city], s)
  | none =>
    match fetch_city_data geoRequest userChoice location_name s with
    | (.error e, s1) => (.error e, s1)
    | (.ok location_data_list, s1) =>
      match location_data_list with
      | [] => (.error .indexError, s1)
      | city_info :: _ =>
        let (country, s2) := ensure_country_exists location_name s1
        let (city, s3) := ensure_city_exists city_info.name city_info.latitude
          city_info.longitude country s2
        (.ok [city], s3)

/-- The four run-time shapes `fetch_seven_day_precipitation` returns (the
source mixes them freely; spec design note on dynamic result shapes). -/
inductive SevenDayResult where
  | rows (precip : List Rat)
  | entries (es : List DailyWeatherEntry)
  | noneResult
  | emptyDict
  deriving Repr, DecidableEq

/-- location_manager.py lines 329-418,
`LocationManager.fetch_seven_day_precipitation`.  The local `weather_data`
starts as `[]`; `end_date = start_date + 6 days`.
City absent: backfill — geocode (errors propagate), take candidate 0, run
`ensure_country_exists(location_name)` / `ensure_city_exists`, fetch weather
for the created city; a `WeatherData` instance is always truthy in Python, so
`process_weather_data(weather_data, ...)` is always entered next, and its very
first statement evaluates `len(weather_data)` on a `WeatherData`, which
defines no `__len__`: the branch ends in a `TypeError`.  Were the candidate
list empty (unreachable: `fetch_city_data` raises first), control would fall
through to `city.id` with `city = None`: `AttributeError`.
City present: read the precipitation rows with date in
`[start_date, end_date]`; return them when non-empty; otherwise
`weather_data` is still the falsy `[]`, so return `{}`. -/
def fetch_seven_day_precipitation (geoRequest : Except PyError GeoResponse)
    (userChoice : Nat) (archiveRequest : Except PyError ArchiveResponse)
    (storeOk : Bool) (location_name : String) (start_date : Nat) (s : S) :
    Except PyError SevenDayResult × S :=
  let end_date := start_date + 6
  match get_city_from_db location_name s.db with
  | none =>
    match fetch_city_data geoRequest userChoice location_name s with
    | (.error e, s1) => (.error e, s1)
    | (.ok city_data_list, s1) =>
      match city_data_list with
      | city_info :: _ =>
        let (country, s2) := ensure_country_exists location_name s1
        let (city, s3) := ensure_city_exists city_info.name city_info.latitude
          city_info.longitude country s2
        let (_weather_data, s4) := fetch_weather_data archiveRequest storeOk city.id s3
        (.error .typeError, s4)
      | [] => (.error .attributeError, s1)
  | some city =>
    let existing_data := (s.db.entries.filter (fun e =>
      e.city_id == city.id && start_date ≤ e.date && e.date ≤ end_date)).map
        (fun e => e.precipitation)
    if !existing_data.isEmpty then
      (.ok (.rows existing_data), s)
    else
      (.ok .emptyDict, s)

/-! ## sqlite_query.py -/

/-- sqlite_query.py lines 160-188, `SQLiteQuery.average_seven_day_precipitation`.
Despite its name and its docstring ("Calculate average precipitation over
seven days", "Returns: float or None"), the body queries the
(date, precipitation) pairs of the city (looked up case-insensitively) with
date in `[start_date, start_date + 6]` and returns that LIST of pairs — it
never computes an average, and it returns `[]` (not None) when no row
matches.  When the city is absent, `city.id` on `None` is an
`AttributeError`. -/
def average_seven_day_precipitation (city_name : String) (start_date : Nat)
    (db : DB) : Except PyError (List (Nat × Rat)) :=
  let end_date := start_date + 6
  match db.cities.find? (fun c => ilike c.name city_name) with
  | none => .error .attributeError
  | some city =>
    .ok ((db.entries.filter (fun e =>
      e.city_id == city.id && start_date ≤ e.date && e.date ≤ end_date)).map
        (fun e => (e.date, e.precipitation)))

/-- Modelled from the spec (§4.7): `sevenDayPrecipitation` as the spec words
it — "average `precipitation` over `[start_date, start_date+6 days]`
inclusive (7 calendar days)", absent when no rows match.  Used only to
compare the source's behaviour against the claimed contract. -/
def spec_sevenDayPrecipitation (city_id : Nat) (start_date : Nat) (db : DB) :
    Option Rat :=
  let rows := (db.entries.filter (fun e =>
    e.city_id == city_id && start_date ≤ e.date && e.date ≤ start_date + 6)).map
      (fun e => e.precipitation)
  if rows.isEmpty then none
  else some (rows.sum / rows.length)

/-! ## Fixtures (concrete values used by witnesses and counterexamples) -/

/-- A one-day archive payload: 2023-style day number 100, max 20, min 10,
precipitation 5. -/
def rawDaily1 : RawDaily :=
  { temperature_2m_max := some [20], temperature_2m_min := some [10],
    precipitation_sum := some [5], time := some [100] }

/-- The archive response wrapping `rawDaily1`. -/
def archOk : ArchiveResponse := { error := none, daily := some rawDaily1 }

/-- The observation normalization produces from `rawDaily1` for city 1. -/
def obs1 : DailyWeatherEntry :=
  { city_id := 1, date := 100, min_temp := 10, max_temp := 20, mean_temp := 15,
    precipitation := 5 }

def w9 : WeatherData := WeatherData.ofDict rawDaily1

/-- A payload whose four sequences are non-empty but of unequal length
(two dates, one of everything else). -/
def w5 : WeatherData :=
  { temperature_2m_max := [20], temperature_2m_min := [10],
    precipitation_sum := [5], dates := [100, 101] }

def italy : Country := { id := 0, name := "Italy", timezone := "CET" }

def rome : City :=
  { id := 0, name := "Rome", latitude := 1, longitude := 2,
    timezone := some "CET", country_id := some 0 }

/-- One persisted observation for Rome on day 100. -/
def romeObs : DailyWeatherEntry :=
  { city_id := 0, date := 100, min_temp := 10, max_temp := 20, mean_temp := 15,
    precipitation := 5 }

def db4 : DB :=
  { countries := [italy], cities := [rome], entries := [romeObs],
    nextCountryId := 1, nextCityId := 1 }

/-- Normalizing the one-day payload for city 1 yields exactly `[obs1]`. -/
theorem rawDaily1_normalizes :
    (WeatherData.ofDict rawDaily1).map_to_daily_weather 1 = .ok [obs1] := by
  norm_num [WeatherData.map_to_daily_weather, WeatherData.ofDict,
    WeatherData.is_valid, rawDaily1, obs1]

/-! ## Claim C1 -/

/-- C1 counterexample.  Hydrating the same city and range twice
(`fetch_weather_data` with the same successful archive response) leaves TWO
observations for the pair (city 1, day 100): the store path
`_store_weather_data` inserts unconditionally and the schema has no
(city_id, date) uniqueness, so the claimed invariant "at most one observation
per (city_id, date)" is false. -/
theorem c1_counterexample :
    ¬ countObservations ((fetch_weather_data (.ok archOk) true 1
        ((fetch_weather_data (.ok archOk) true 1 s0).2)).2).db 1 100 ≤ 1 := by
  decide

/-- C1 amended: hydrating the same range twice appends the same normalized
batch twice — the second call re-inserts every row instead of skipping
duplicates (the known weakness the spec flags in §9). -/
theorem c1_amended (daily : RawDaily) (cid : Nat) (s : S)
    (es : List DailyWeatherEntry)
    (hok : (WeatherData.ofDict daily).map_to_daily_weather cid = .ok es) :
    ((fetch_weather_data (.ok { error := none, daily := some daily }) true cid
      ((fetch_weather_data (.ok { error := none, daily := some daily }) true cid s).2)).2).db.entries
      = s.db.entries ++ es ++ es := by
  have hv : (WeatherData.ofDict daily).is_valid = true := by
    by_contra hv
    rw [WeatherData.map_to_daily_weather] at hok
    simp [hv] at hok
  simp [fetch_weather_data, hv, hok, store_weather_data, List.append_assoc]

/-- C1 witness: the amended statement at the concrete one-day payload. -/
theorem c1_witness :
    (WeatherData.ofDict rawDaily1).map_to_daily_weather 1 = .ok [obs1] ∧
    ((fetch_weather_data (.ok { error := none, daily := some rawDaily1 }) true 1
      ((fetch_weather_data (.ok { error := none, daily := some rawDaily1 }) true 1 s0).2)).2).db.entries
      = s0.db.entries ++ [obs1] ++ [obs1] :=
  ⟨rawDaily1_normalizes, c1_amended rawDaily1 1 s0 [obs1] rawDaily1_normalizes⟩

/-! ## Claim C2 -/

/-- C2 (code bug): the hydration path does NOT propagate failures.
`fetch_weather_data` wraps its whole body in `except Exception`, so both a
remote-fetch failure (any `PyError` from `_make_request`) and a malformed
response (no "daily" key) are converted into an empty `WeatherData` with the
store untouched — exactly the empty/default result the claim (and the repo's
own test `test_fetch_weather_data_invalid_response`, which expects a raised
`ValueError`) forbids. -/
theorem c2_failures_swallowed (e : PyError) (storeOk : Bool) (cid : Nat) (s : S) :
    fetch_weather_data (.error e) storeOk cid s =
      (emptyWeatherData, { s with archiveCalls := s.archiveCalls + 1 }) ∧
    fetch_weather_data (.ok { error := none, daily := none }) storeOk cid s =
      (emptyWeatherData, { s with archiveCalls := s.archiveCalls + 1 }) := by
  constructor <;> simp [fetch_weather_data]

/-! ## Claim C4 -/

/-- C4 (code bug): `average_seven_day_precipitation` never computes an
average.  On a store holding one observation (precipitation 5) for Rome on
day 100, the call returns the LIST `[(100, 5)]` of (date, precipitation)
pairs — its own docstring says "Returns: float or None" and the repo's test
suite asserts a float — and on a window with no matching rows it returns
`[]`, not an absent value.  `spec_sevenDayPrecipitation` (the claimed
contract) returns `some 5` and `none` respectively on the same store. -/
theorem c4_returns_rows_not_average :
    average_seven_day_precipitation "Rome" 100 db4 = .ok [(100, 5)] ∧
    spec_sevenDayPrecipitation 0 100 db4 = some 5 ∧
    average_seven_day_precipitation "Rome" 300 db4 = .ok [] ∧
    spec_sevenDayPrecipitation 0 300 db4 = none := by
  refine ⟨?_, ?_, ?_, ?_⟩ <;>
    norm_num [average_seven_day_precipitation, spec_sevenDayPrecipitation,
      db4, italy, rome, romeObs, ilike, List.find?, List.filter]

/-! ## Claim C5 -/

/-- C5 counterexample: a payload whose sequences are non-empty but of UNEQUAL
length (two dates, one of everything else) is NOT rejected:
`map_to_daily_weather` silently zips down to the shortest sequence and
returns one record, contradicting "normalize fails with InvalidPayload" for
length-mismatched payloads. -/
theorem c5_counterexample :
    w5.dates.length ≠ w5.temperature_2m_max.length ∧
    w5.map_to_daily_weather 1 = .ok [obs1] := by
  refine ⟨by decide, ?_⟩
  norm_num [WeatherData.map_to_daily_weather, WeatherData.is_valid, w5, obs1]

/-- C5 amended: validation rejects a payload exactly when one of the four
sequences is EMPTY (`is_valid` checks only non-emptiness); on any payload of
four non-empty sequences — equal length or not — it produces records,
truncating to the shortest sequence (Python `zip`). -/
theorem c5_amended (w : WeatherData) (cid : Nat) :
    (w.is_valid = false →
      w.map_to_daily_weather cid =
        .error (.valueError "Invalid weather data. Missing or empty required fields.")) ∧
    (w.is_valid = true → ∃ es, w.map_to_daily_weather cid = .ok es ∧
      es.length = min w.dates.length (min w.temperature_2m_max.length
        (min w.temperature_2m_min.length w.precipitation_sum.length))) := by
  constructor
  · intro h
    rw [WeatherData.map_to_daily_weather]
    simp [h]
  · intro h
    rw [WeatherData.map_to_daily_weather]
    simp only [h, if_pos]
    exact ⟨_, rfl, by simp [List.length_zip]⟩

/-- C5 witness: the amended statement at `emptyWeatherData` (rejected) and at
the unequal-length `w5` (one truncated record). -/
theorem c5_witness :
    (emptyWeatherData.is_valid = false) ∧
    emptyWeatherData.map_to_daily_weather 1 =
      .error (.valueError "Invalid weather data. Missing or empty required fields.") ∧
    (w5.is_valid = true) ∧
    (∃ es, w5.map_to_daily_weather 1 = .ok es ∧
      es.length = min w5.dates.length (min w5.temperature_2m_max.length
        (min w5.temperature_2m_min.length w5.precipitation_sum.length))) :=
  ⟨by decide, (c5_amended emptyWeatherData 1).1 (by decide), by decide,
    (c5_amended w5 1).2 (by decide)⟩

/-! ## Claim C9 -/

/-- C9: every record produced by `map_to_daily_weather` has
`mean_temp = (max_temp + min_temp) / 2` and carries the given city id.  The
function is a pure function of the payload and the city id: in this embedding
it takes no store and performs no effect, mirroring the source body, which
touches no session and does no I/O. -/
theorem c9_mean_temp (w : WeatherData) (cid : Nat) (es : List DailyWeatherEntry)
    (hok : w.map_to_daily_weather cid = .ok es) :
    ∀ e ∈ es, e.mean_temp = (e.max_temp + e.min_temp) / 2 ∧ e.city_id = cid := by
  have hv : w.is_valid = true := by
    by_contra hv
    rw [WeatherData.map_to_daily_weather] at hok
    simp [hv] at hok
  rw [WeatherData.map_to_daily_weather, if_pos hv] at hok
  injection hok with hok
  subst hok
  intro e he
  obtain ⟨x, _, rfl⟩ := List.mem_map.mp he
  exact ⟨rfl, rfl⟩

/-- C9 witness: the theorem at the concrete one-day payload `w9`
(max 20, min 10, mean 15). -/
theorem c9_witness :
    w9.map_to_daily_weather 1 = .ok [obs1] ∧
    ∀ e ∈ [obs1], e.mean_temp = (e.max_temp + e.min_temp) / 2 ∧ e.city_id = 1 :=
  ⟨rawDaily1_normalizes, c9_mean_temp w9 1 [obs1] rawDaily1_normalizes⟩

/-! ## Claim C6 -/

/-- One unfolding step of the retry loop at positive fuel. -/
theorem make_request_aux_succ {α : Type} (url : String)
    (transport : Nat → Except PyError α) (max_retries retry_delay attempt fuel : Nat) :
    make_request_aux url transport max_retries retry_delay attempt (fuel + 1) =
      (match transport attempt with
       | .ok data => (.ok (some data), 1, [])
       | .error (.requestException _) =>
         if attempt < max_retries then
           let r := make_request_aux url transport max_retries retry_delay (attempt + 1) fuel
           (r.1, r.2.1 + 1, retry_delay :: r.2.2)
         else
           (.error (.exception ("Failed to fetch data from " ++ url ++ " after " ++
             toString max_retries ++ " attempts")), 1, [])
       | .error e => (.error e, 1, [])) := rfl

/-- When every attempt fails with a transport error, the retry loop runs all
remaining attempts, sleeping once between consecutive ones, and ends in the
generic exhaustion `Exception`. -/
theorem make_request_aux_all_fail {α : Type} (url : String)
    (transport : Nat → Except PyError α) (max_retries retry_delay : Nat)
    (htr : ∀ n, ∃ msg, transport n = .error (.requestException msg)) :
    ∀ fuel attempt, 1 ≤ fuel → attempt + fuel = max_retries + 1 →
      make_request_aux url transport max_retries retry_delay attempt fuel =
        (.error (.exception ("Failed to fetch data from " ++ url ++ " after " ++
          toString max_retries ++ " attempts")), fuel,
         List.replicate (fuel - 1) retry_delay) := by
  intro fuel
  induction fuel with
  | zero => intro attempt h1 _; omega
  | succ f ih =>
    intro attempt h1 h2
    obtain ⟨msg, hmsg⟩ := htr attempt
    rw [make_request_aux_succ, hmsg]
    by_cases hlt : attempt < max_retries
    · have hf : 1 ≤ f := by omega
      obtain ⟨m, rfl⟩ : ∃ m, f = m + 1 := ⟨f - 1, by omega⟩
      rw [ih (attempt + 1) hf (by omega)]
      simp [if_pos hlt, List.replicate]
    · have hf0 : f = 0 := by omega
      subst hf0
      simp [if_neg hlt]

/-- C6 amended: when the transport fails on every attempt, `_make_request`
makes exactly `max_retries` attempts and sleeps the configured fixed delay
between consecutive attempts (`max_retries - 1` sleeps); but the failure it
then raises is the generic `Exception("Failed to fetch data from {url} after
{max_retries} attempts")`, which names only the URL and the attempt count —
it does NOT carry the last underlying error. -/
theorem c6_amended {α : Type} (url : String)
    (transport : Nat → Except PyError α) (max_retries retry_delay : Nat)
    (hmr : 1 ≤ max_retries)
    (htr : ∀ n, ∃ msg, transport n = .error (.requestException msg)) :
    make_request url transport max_retries retry_delay =
      (.error (.exception ("Failed to fetch data from " ++ url ++ " after " ++
        toString max_retries ++ " attempts")), max_retries,
       List.replicate (max_retries - 1) retry_delay) := by
  unfold make_request
  exact make_request_aux_all_fail url transport max_retries retry_delay htr
    max_retries 1 hmr (by omega)

/-- C6 witness: the amended statement at url "u", 3 attempts, delay 2, with
every attempt failing. -/
theorem c6_witness :
    1 ≤ 3 ∧
    make_request "u" (fun _ => (.error (.requestException "boom") : Except PyError Nat)) 3 2 =
      (.error (.exception "Failed to fetch data from u after 3 attempts"), 3, [2, 2]) :=
  ⟨by omega, by
    have h := c6_amended "u"
      (fun _ => (.error (.requestException "boom") : Except PyError Nat)) 3 2
      (by omega) (fun _ => ⟨"boom", rfl⟩)
    simpa using h⟩

/-- C6 counterexample (against "carrying the last underlying error"): two
transports that fail with DIFFERENT underlying errors produce the IDENTICAL
raised failure, so the raised error cannot carry the last underlying error. -/
theorem c6_counterexample :
    make_request "u" (fun _ => (.error (.requestException "boom-1") : Except PyError Nat)) 3 2 =
      make_request "u" (fun _ => .error (.requestException "boom-2")) 3 2 ∧
    ((.error (.requestException "boom-1") : Except PyError Nat) ≠
      .error (.requestException "boom-2")) := by
  refine ⟨rfl, by simp⟩

/-! ## Claim C7 -/

/-- C7 amended: a successful geocoding response with zero results makes
`fetch_city_data` raise `ValueError("No results found for city: ...")` — it
never returns an empty sequence — and `ensure_location_in_database` (the
resolver) propagates that `ValueError` unchanged; no `LocationNotFound`-style
conversion exists. -/
theorem c7_amended (name : String) (uc : Nat) (resp : GeoResponse) (s : S)
    (hres : resp.results.getD [] = [])
    (hmiss : get_city_from_db name s.db = none) :
    fetch_city_data (.ok resp) uc name s =
      (.error (.valueError ("No results found for city: " ++ name)),
       { s with geocoderCalls := s.geocoderCalls + 1 }) ∧
    ensure_location_in_database (.ok resp) uc name s =
      (.error (.valueError ("No results found for city: " ++ name)),
       { s with geocoderCalls := s.geocoderCalls + 1 }) := by
  have h1 : fetch_city_data (.ok resp) uc name s =
      (.error (.valueError ("No results found for city: " ++ name)),
       { s with geocoderCalls := s.geocoderCalls + 1 }) := by
    simp [fetch_city_data, hres]
  refine ⟨h1, ?_⟩
  simp [ensure_location_in_database, hmiss, h1]

/-- C7 counterexample: with zero geocoding results, resolving "Atlantis"
returns a raised `ValueError`, not an empty sequence and not a
`LocationNotFound` condition. -/
theorem c7_counterexample :
    ensure_location_in_database (.ok { results := some [] }) 0 "Atlantis" s0 =
      (.error (.valueError "No results found for city: Atlantis"),
       { s0 with geocoderCalls := 1 }) := by
  rfl

/-- C7 witness: the amended statement at name "Nowhere" with an absent
"results" key and an empty store. -/
theorem c7_witness :
    (({ results := none } : GeoResponse).results.getD [] = []) ∧
    (get_city_from_db "Nowhere" s0.db = none) ∧
    fetch_city_data (.ok { results := none }) 0 "Nowhere" s0 =
      (.error (.valueError "No results found for city: Nowhere"),
       { s0 with geocoderCalls := 1 }) ∧
    ensure_location_in_database (.ok { results := none }) 0 "Nowhere" s0 =
      (.error (.valueError "No results found for city: Nowhere"),
       { s0 with geocoderCalls := 1 }) :=
  ⟨rfl, rfl,
    (c7_amended "Nowhere" 0 { results := none } s0 rfl rfl).1,
    (c7_amended "Nowhere" 0 { results := none } s0 rfl rfl).2⟩

/-! ## Claim C10 -/

/-- C10: when the queried city is already persisted but the store holds no
observation for it in `[start_date, start_date + 6]`,
`fetch_seven_day_precipitation` returns the empty dict `{}` and the state is
completely unchanged — no geocoding call, no archive fetch, no write.  The
backfill branch is entered only when the city itself is absent. -/
theorem c10_no_backfill_when_city_present (geoRequest : Except PyError GeoResponse)
    (uc : Nat) (archiveRequest : Except PyError ArchiveResponse) (storeOk : Bool)
    (name : String) (start : Nat) (s : S) (city : City)
    (hcity : get_city_from_db name s.db = some city)
    (hnone : s.db.entries.filter (fun e =>
      e.city_id == city.id && start ≤ e.date && e.date ≤ start + 6) = []) :
    fetch_seven_day_precipitation geoRequest uc archiveRequest storeOk name start s =
      (.ok .emptyDict, s) := by
  simp [fetch_seven_day_precipitation, hcity, hnone]

/-- C10 witness: Rome is persisted with a single observation on day 100; a
query starting at day 300 matches nothing and returns `{}` with the state
untouched. -/
theorem c10_witness :
    (get_city_from_db "Rome" db4 = some rome) ∧
    (db4.entries.filter (fun e =>
      e.city_id == rome.id && 300 ≤ e.date && e.date ≤ 300 + 6) = []) ∧
    fetch_seven_day_precipitation (.ok { results := none }) 0 (.error .indexError)
      true "Rome" 300 { db := db4, geocoderCalls := 0, archiveCalls := 0 } =
      (.ok .emptyDict, { db := db4, geocoderCalls := 0, archiveCalls := 0 }) :=
  ⟨by decide, by decide,
    c10_no_backfill_when_city_present (.ok { results := none }) 0 (.error .indexError)
      true "Rome" 300 { db := db4, geocoderCalls := 0, archiveCalls := 0 } rome
      (by decide) (by decide)⟩

/-! ## Helper lemmas for the resolver claims (C3, C8) -/

/-- `find?` skips a prefix in which nothing matches. -/
theorem find?_append_of_none {α : Type} (p : α → Bool) (l₁ l₂ : List α)
    (h : l₁.find? p = none) : (l₁ ++ l₂).find? p = l₂.find? p := by
  simp [List.find?_append, h]

/-- The cache-hit path of the resolver: a city persisted under the exact
queried name is returned as-is, with no geocoder call and no store change. -/
theorem resolve_cache_hit (geoRequest : Except PyError GeoResponse) (uc : Nat)
    (name : String) (s : S) (city : City)
    (h : get_city_from_db name s.db = some city) :
    ensure_location_in_database geoRequest uc name s = (.ok [city], s) := by
  simp [ensure_location_in_database, h]

/-- `ensure_country_exists` touches only the countries table. -/
theorem ensure_country_exists_frame (n : String) (s : S) :
    ((ensure_country_exists n s).2).db.cities = s.db.cities ∧
    ((ensure_country_exists n s).2).db.entries = s.db.entries ∧
    ((ensure_country_exists n s).2).geocoderCalls = s.geocoderCalls ∧
    ((ensure_country_exists n s).2).archiveCalls = s.archiveCalls := by
  unfold ensure_country_exists
  rcases hfind : s.db.countries.find? (fun c => ilike c.name n) with _ | c <;> simp [hfind]

/-- `ensure_city_exists` on a found city with a country association returns
the city and leaves the state unchanged. -/
theorem ensure_city_exists_found (nm : String) (lat lon : Rat) (country : Country)
    (s : S) (city : City)
    (hfind : s.db.cities.find? (fun c => c.name == nm) = some city)
    (hcid : city.country_id.isSome = true) :
    ensure_city_exists nm lat lon country s = (city, s) := by
  unfold ensure_city_exists
  rw [hfind]
  obtain ⟨a, ha⟩ := Option.isSome_iff_exists.mp hcid
  simp [ha]

/-- A complete geocoding candidate (name, coordinates present). -/
def mkCand (nm : String) (lat lon : Rat) (co cc tz : Option String) : GeoCandidate :=
  { name := some nm, latitude := some lat, longitude := some lon,
    country := co, country_code := cc, timezone := tz }

/-- A successful geocoding response with `mkCand nm lat lon co cc tz` as its
single result. -/
def geoReq1 (nm : String) (lat lon : Rat) (co cc tz : Option String) :
    Except PyError GeoResponse :=
  .ok { results := some [mkCand nm lat lon co cc tz] }

/-- A single-candidate geocoding success: `fetch_city_data` persists exactly
one new city carrying the candidate's name, coordinates and timezone, bound
to some country id, and makes exactly one geocoder call. -/
theorem fetch_city_data_single (nm : String) (lat lon : Rat)
    (co cc tz : Option String) (uc : Nat) (name : String) (s : S) :
    ∃ (cid : Nat),
      (fetch_city_data (geoReq1 nm lat lon co cc tz) uc name s).1 =
        .ok [{ id := s.db.nextCityId, name := nm, latitude := lat, longitude := lon,
               timezone := tz, country_id := some cid }] ∧
      ((fetch_city_data (geoReq1 nm lat lon co cc tz) uc name s).2).db.cities =
        s.db.cities ++
          [{ id := s.db.nextCityId, name := nm, latitude := lat, longitude := lon,
             timezone := tz, country_id := some cid }] ∧
      ((fetch_city_data (geoReq1 nm lat lon co cc tz) uc name s).2).db.entries =
        s.db.entries ∧
      ((fetch_city_data (geoReq1 nm lat lon co cc tz) uc name s).2).geocoderCalls =
        s.geocoderCalls + 1 ∧
      ((fetch_city_data (geoReq1 nm lat lon co cc tz) uc name s).2).archiveCalls =
        s.archiveCalls := by
  rcases hcn : co <|> cc with _ | cn
  · exact ⟨s.db.nextCountryId,
      by simp [geoReq1, mkCand, fetch_city_data, hcn],
      by simp [geoReq1, mkCand, fetch_city_data, hcn],
      by simp [geoReq1, mkCand, fetch_city_data, hcn],
      by simp [geoReq1, mkCand, fetch_city_data, hcn],
      by simp [geoReq1, mkCand, fetch_city_data, hcn]⟩
  · rcases hfind : s.db.countries.find? (fun c => c.name == cn) with _ | c
    · exact ⟨s.db.nextCountryId,
        by simp [geoReq1, mkCand, fetch_city_data, hcn, hfind],
        by simp [geoReq1, mkCand, fetch_city_data, hcn, hfind],
        by simp [geoReq1, mkCand, fetch_city_data, hcn, hfind],
        by simp [geoReq1, mkCand, fetch_city_data, hcn, hfind],
        by simp [geoReq1, mkCand, fetch_city_data, hcn, hfind]⟩
    · exact ⟨c.id,
        by simp [geoReq1, mkCand, fetch_city_data, hcn, hfind],
        by simp [geoReq1, mkCand, fetch_city_data, hcn, hfind],
        by simp [geoReq1, mkCand, fetch_city_data, hcn, hfind],
        by simp [geoReq1, mkCand, fetch_city_data, hcn, hfind],
        by simp [geoReq1, mkCand, fetch_city_data, hcn, hfind]⟩

/-! ## Claim C3 -/

/-- C3 amended.  Part one: for a name under which a City is persisted
(exact, case-sensitive match), the resolver returns the stored city, makes no
geocoder call and leaves the state unchanged.  Part two: when the name is
absent AND the geocoder's candidate bears exactly the queried name, the first
resolve makes one geocoder call and the second resolve is a cache hit, so the
two calls together make exactly one geocoder call.  (When the candidate's
name differs from the query — even by letter case — the city is stored under
the candidate's name, the second resolve misses the cache and a second
network call happens; see the counterexample.) -/
theorem c3_amended :
    (∀ (geoRequest : Except PyError GeoResponse) (uc : Nat) (name : String)
        (s : S) (city : City),
      get_city_from_db name s.db = some city →
      ensure_location_in_database geoRequest uc name s = (.ok [city], s)) ∧
    (∀ (name : String) (lat lon : Rat) (co cc tz : Option String) (uc : Nat) (s : S),
      get_city_from_db name s.db = none →
      ∃ (city : City) (s1 : S),
        ensure_location_in_database (geoReq1 name lat lon co cc tz) uc name s =
          (.ok [city], s1) ∧
        s1.geocoderCalls = s.geocoderCalls + 1 ∧
        ensure_location_in_database (geoReq1 name lat lon co cc tz) uc name s1 =
          (.ok [city], s1)) := by
  constructor
  · exact fun geoRequest uc name s city h => resolve_cache_hit geoRequest uc name s city h
  · intro name lat lon co cc tz uc s hmiss
    obtain ⟨cid, h1, h2, h3, h4, h5⟩ := fetch_city_data_single name lat lon co cc tz uc name s
    set sF := (fetch_city_data (geoReq1 name lat lon co cc tz) uc name s).2 with hsF
    set city : City := { id := s.db.nextCityId, name := name, latitude := lat, longitude := lon, timezone := tz, country_id := some cid } with hcity
    have hpair : fetch_city_data (geoReq1 name lat lon co cc tz) uc name s =
        (.ok [city], sF) := by
      rw [← h1]
    obtain ⟨country, s2, hce⟩ :
        ∃ country s2, ensure_country_exists name sF = (country, s2) :=
      ⟨_, _, Prod.mk.eta.symm⟩
    have hframe := ensure_country_exists_frame name sF
    rw [hce] at hframe
    have hmissF : s.db.cities.find? (fun c => c.name == name) = none := hmiss
    have hs2cities : s2.db.cities = s.db.cities ++ [city] := by
      rw [hframe.1, h2]
    have hfindcity : s2.db.cities.find? (fun c => c.name == name) = some city := by
      rw [hs2cities, find?_append_of_none _ _ _ hmissF]
      simp [List.find?, hcity]
    have hfindcity2 : s2.db.cities.find? (fun c => c.name == city.name) = some city :=
      hfindcity
    have hcityok : ensure_city_exists city.name city.latitude city.longitude country s2 =
        (city, s2) :=
      ensure_city_exists_found city.name city.latitude city.longitude country s2 city
        hfindcity2 (by simp [hcity])
    have hfirst : ensure_location_in_database (geoReq1 name lat lon co cc tz) uc name s =
        (.ok [city], s2) := by
      simp only [ensure_location_in_database, hmiss, hpair, hce, hcityok]
    have hhit : get_city_from_db name s2.db = some city := hfindcity
    refine ⟨city, s2, hfirst, ?_, ?_⟩
    · rw [hframe.2.2.1, h4]
    · exact resolve_cache_hit (geoReq1 name lat lon co cc tz) uc name s2 city hhit

/-- The geocoder answers the query "london" with a single candidate named
"London" (country "UK", timezone "GMT"). -/
def req3 : Except PyError GeoResponse := geoReq1 "London" 51 0 (some "UK") none (some "GMT")

/-- C3 counterexample: resolving "london" twice makes TWO geocoder calls, not
one.  The first call stores the city under the candidate's name "London";
the second call's exact, case-sensitive lookup of "london" misses the cache
and hits the network again. -/
theorem c3_counterexample :
    ((ensure_location_in_database req3 0 "london"
        ((ensure_location_in_database req3 0 "london" s0).2)).2).geocoderCalls = 2 ∧
    ¬ ((ensure_location_in_database req3 0 "london"
        ((ensure_location_in_database req3 0 "london" s0).2)).2).geocoderCalls = 1 := by
  refine ⟨by decide, by decide⟩

def sRome : S := { db := db4, geocoderCalls := 0, archiveCalls := 0 }

/-- C3 witness: both parts of the amended statement at concrete inputs —
a cache hit on the persisted "Rome", and a miss-then-hit pair on "Lisbon"
whose candidate bears exactly the queried name. -/
theorem c3_witness :
    (get_city_from_db "Rome" sRome.db = some rome) ∧
    ensure_location_in_database (.ok { results := none }) 0 "Rome" sRome =
      (.ok [rome], sRome) ∧
    (get_city_from_db "Lisbon" s0.db = none) ∧
    (∃ (city : City) (s1 : S),
      ensure_location_in_database (geoReq1 "Lisbon" 3 4 (some "Portugal") none (some "WET"))
        0 "Lisbon" s0 = (.ok [city], s1) ∧
      s1.geocoderCalls = s0.geocoderCalls + 1 ∧
      ensure_location_in_database (geoReq1 "Lisbon" 3 4 (some "Portugal") none (some "WET"))
        0 "Lisbon" s1 = (.ok [city], s1)) :=
  ⟨rfl, c3_amended.1 (.ok { results := none }) 0 "Rome" sRome rome rfl, rfl,
    c3_amended.2 "Lisbon" 3 4 (some "Portugal") none (some "WET") 0 s0 rfl⟩

/-! ## Claim C8 -/

/-- `ensure_country_exists` on a miss creates the country under the GIVEN
name with timezone "Unavailable". -/
theorem ensure_country_exists_create (n : String) (s : S)
    (h : s.db.countries.find? (fun c => ilike c.name n) = none) :
    ensure_country_exists n s =
      ({ id := s.db.nextCountryId, name := n, timezone := "Unavailable" },
       { s with db := { s.db with countries := s.db.countries ++ [{ id := s.db.nextCountryId, name := n, timezone := "Unavailable" }], nextCountryId := s.db.nextCountryId + 1 } }) := by
  simp [ensure_country_exists, h]

/-- A single-candidate geocoding success whose candidate's country is new to
the store: `fetch_city_data` creates the country under the CANDIDATE's
country name with the candidate's timezone (default "Unavailable") and binds
the new city to it. -/
theorem fetch_city_data_new_country (nm : String) (lat lon : Rat) (cn : String)
    (cc tz : Option String) (uc : Nat) (name : String) (s : S)
    (hnocountry : s.db.countries.find? (fun c => c.name == cn) = none) :
    fetch_city_data (geoReq1 nm lat lon (some cn) cc tz) uc name s =
      (.ok [{ id := s.db.nextCityId, name := nm, latitude := lat, longitude := lon, timezone := tz, country_id := some s.db.nextCountryId }],
       { db := { countries := s.db.countries ++ [{ id := s.db.nextCountryId, name := cn, timezone := tz.getD "Unavailable" }], cities := s.db.cities ++ [{ id := s.db.nextCityId, name := nm, latitude := lat, longitude := lon, timezone := tz, country_id := some s.db.nextCountryId }], entries := s.db.entries, nextCountryId := s.db.nextCountryId + 1, nextCityId := s.db.nextCityId + 1 }, geocoderCalls := s.geocoderCalls + 1, archiveCalls := s.archiveCalls }) := by
  simp [fetch_city_data, geoReq1, mkCand, hnocountry]

/-- C8 amended: on a cache miss with a single geocoding candidate carrying a
country `cn` and a timezone, the resolver creates TWO countries.  Inside
`fetch_city_data` the candidate's country is created under `cn` with the
candidate's timezone (default "Unavailable") and the new City is bound to it;
but `ensure_location_in_database` then calls
`ensure_country_exists(location_name)` with the QUERIED name, creating — when
no country case-insensitively matches that name — a second, spurious Country
named after the queried location with timezone "Unavailable", even though the
geocoder supplied both a country and a timezone. -/
theorem c8_amended (name nm : String) (lat lon : Rat) (cn : String)
    (cc tz : Option String) (uc : Nat) (s : S)
    (hmiss : get_city_from_db name s.db = none)
    (hmissnm : s.db.cities.find? (fun c => c.name == nm) = none)
    (hnocountry : s.db.countries.find? (fun c => c.name == cn) = none)
    (hnoilike : s.db.countries.find? (fun c => ilike c.name name) = none)
    (hdiff : ilike cn name = false) :
    (ensure_location_in_database (geoReq1 nm lat lon (some cn) cc tz) uc name s).1 =
      .ok [({ id := s.db.nextCityId, name := nm, latitude := lat, longitude := lon, timezone := tz, country_id := some s.db.nextCountryId } : City)] ∧
    ((ensure_location_in_database (geoReq1 nm lat lon (some cn) cc tz) uc name s).2).db.countries =
      s.db.countries ++
        [{ id := s.db.nextCountryId, name := cn, timezone := tz.getD "Unavailable" },
         { id := s.db.nextCountryId + 1, name := name, timezone := "Unavailable" }] := by
  have hfetch := fetch_city_data_new_country nm lat lon cn cc tz uc name s hnocountry
  constructor <;>
    simp [ensure_location_in_database, ensure_country_exists, ensure_city_exists,
      hmiss, hfetch, List.find?_append, List.find?, hnoilike, hdiff, hmissnm,
      List.append_assoc]

/-- C8 counterexample: resolving "Paris" on an empty store with a candidate
that DOES supply a country ("France") and a timezone ("CET") still leaves a
Country named "Paris" with timezone "Unavailable" in the store (beside the
properly created "France"/"CET" one), contradicting "the name and timezone
'Unavailable' are used only when the geocoder supplied no country or no
timezone". -/
theorem c8_counterexample :
    (mkCand "Paris" 2 48 (some "France") none (some "CET")).country = some "France" ∧
    (mkCand "Paris" 2 48 (some "France") none (some "CET")).timezone = some "CET" ∧
    ((ensure_location_in_database (geoReq1 "Paris" 2 48 (some "France") none (some "CET"))
        0 "Paris" s0).2).db.countries =
      [{ id := 0, name := "France", timezone := "CET" },
       { id := 1, name := "Paris", timezone := "Unavailable" }] := by
  refine ⟨rfl, rfl, by decide⟩

/-- C8 witness: the amended statement at the concrete "Paris"/"France" run on
the empty store. -/
theorem c8_witness :
    (get_city_from_db "Paris" s0.db = none) ∧
    (ilike "France" "Paris" = false) ∧
    (ensure_location_in_database (geoReq1 "Paris" 2 48 (some "France") none (some "CET"))
        0 "Paris" s0).1 =
      .ok [({ id := 0, name := "Paris", latitude := 2, longitude := 48, timezone := some "CET", country_id := some 0 } : City)] ∧
    ((ensure_location_in_database (geoReq1 "Paris" 2 48 (some "France") none (some "CET"))
        0 "Paris" s0).2).db.countries =
      [{ id := 0, name := "France", timezone := "CET" },
       { id := 1, name := "Paris", timezone := "Unavailable" }] :=
  ⟨rfl, by decide,
    (c8_amended "Paris" "Paris" 2 48 "France" none (some "CET") 0 s0
      rfl rfl rfl rfl (by decide)).1,
    (c8_amended "Paris" "Paris" 2 48 "France" none (some "CET") 0 s0
      rfl rfl rfl rfl (by decide)).2⟩
